import Mathlib

/-!
Verification of the urlredir request-processing pipeline.

This file shallowly embeds the middleware chain, the error taxonomy, the
transaction lifecycle and the request handlers of the urlredir service
(handlers source, `errors.go`, `storage.go`, wiring in `main.go`).
Go's side effects are made explicit: the response writer, the committed
database state and the transaction-local working state are threaded as a
state record, and panics are an explicit outcome constructor.
-/

namespace Urlredir

/-! ## Error model (errors.go, database/sql sentinels) -/

/-- Go error values occurring in the program.
`nilErr` is the nil error interface value (used only as an absent cause);
`sentinel` is the constant `Error` string type of errors.go;
`sqlNoRows` / `sqlTxDone` are the database/sql sentinels;
`wrap` is an error built by wrapping another (the Go side uses
fmt.Errorf with a percent-w verb), carrying the wrapped error and the
rendered message; `httpErr` is `*HTTPError` with code, cause and
message; `strErr` is any other plain error value. -/
inductive GoErr where
  | nilErr
  | sentinel (msg : String)
  | sqlNoRows
  | sqlTxDone
  | wrap (inner : GoErr) (msg : String)
  | httpErr (code : Nat) (cause : GoErr) (message : String)
  | strErr (msg : String)
deriving DecidableEq, Repr

/-- Sentinel `ErrUnknown` from errors.go. -/
def ErrUnknown : GoErr := .sentinel "unknown error"

/-- Sentinel `ErrInvalidIP` from errors.go. -/
def ErrInvalidIP : GoErr := .sentinel "invalid IP"

/-- Sentinel `ErrInvalidURL` from errors.go. -/
def ErrInvalidURL : GoErr := .sentinel "invalid URL"

/-- Sentinel `ErrMissingName` from errors.go. -/
def ErrMissingName : GoErr := .sentinel "missing name"

/-- Sentinel `ErrMissingURL` from errors.go. -/
def ErrMissingURL : GoErr := .sentinel "missing URL"

/-- Sentinel `ErrMissingUser` from errors.go. -/
def ErrMissingUser : GoErr := .sentinel "missing user"

/-- The message rendered by the error's Error method. -/
def errMessage : GoErr → String
  | .nilErr => ""
  | .sentinel m => m
  | .sqlNoRows => "sql: no rows in result set"
  | .sqlTxDone => "sql: transaction has already been committed or rolled back"
  | .wrap _ m => m
  | .httpErr _ _ m => m
  | .strErr m => m

/-- Go `errors.Is`: equality first, then repeated unwrapping.  Only `wrap`
exposes an Unwrap method; in particular `*HTTPError` does not unwrap. -/
def errorsIs : GoErr → GoErr → Bool
  | .wrap inner m, t => (GoErr.wrap inner m == t) || errorsIs inner t
  | e, t => e == t

/-- A Go panic value: either an error or any other value (rendered as a
string by the percent-s verb / type switch default arms). -/
inductive PanicVal where
  | err (e : GoErr)
  | str (s : String)
deriving DecidableEq, Repr

/-! ## Response writer model (net/http) -/

/-- The observable response state: headers (Set semantics), the status code
once written (first WriteHeader wins, as in net/http), and the body bytes
written so far. -/
structure Response where
  headers : List (String × String)
  status : Option Nat
  body : String
deriving DecidableEq, Repr

/-- The fresh response recorder. -/
def Response.empty : Response := ⟨[], none, ""⟩

/-- Header().Set: replaces any existing value for the key. -/
def Response.setHeader (resp : Response) (k v : String) : Response :=
  if resp.headers.any (fun kv => kv.1 == k) then
    let hs := resp.headers.map (fun kv => if kv.1 == k then (kv.1, v) else kv)
    { resp with headers := hs }
  else
    { resp with headers := resp.headers ++ [(k, v)] }

/-- Header().Get: first value for the key, or empty. -/
def Response.getHeader (resp : Response) (k : String) : String :=
  match resp.headers.find? (fun kv => kv.1 == k) with
  | some kv => kv.2
  | none => ""

/-- WriteHeader: records the status code; subsequent calls are ignored. -/
def Response.writeHeader (resp : Response) (code : Nat) : Response :=
  match resp.status with
  | some _ => resp
  | none => { resp with status := some code }

/-- Write: implicitly writes status 200 if none written yet, then appends. -/
def Response.write (resp : Response) (s : String) : Response :=
  { resp with status := some (resp.status.getD 200), body := resp.body ++ s }

/-- http.StatusText for the codes used by the program. -/
def statusText : Nat → String
  | 200 => "OK"
  | 301 => "Moved Permanently"
  | 303 => "See Other"
  | 400 => "Bad Request"
  | 403 => "Forbidden"
  | 404 => "Not Found"
  | 500 => "Internal Server Error"
  | _ => ""

/-- net/http `Error`: content-type headers, status, then the message
followed by a newline (Fprintln). -/
def httpErrorWrite (resp : Response) (msg : String) (code : Nat) : Response :=
  (((resp.setHeader "Content-Type" "text/plain; charset=utf-8").setHeader
      "X-Content-Type-Options" "nosniff").writeHeader code).write (msg ++ "\n")

/-- Escaping of one character as performed by net/http on the URL placed in
the redirect fallback body. -/
def htmlEscapeChar (c : Char) : List Char :=
  if c = '&' then "&amp;".toList
  else if c = '<' then "&lt;".toList
  else if c = '>' then "&gt;".toList
  else if c = '"' then "&#34;".toList
  else if c = '\'' then "&#39;".toList
  else [c]

/-- Minimal HTML escaping as performed by net/http Redirect on the URL
placed in the fallback body. -/
def htmlEscape (s : String) : String :=
  (s.toList.foldr (fun c acc => htmlEscapeChar c ++ acc) []).asString

/-- net/http `Redirect`: sets the Location header and writes the status; for
GET requests with no prior Content-Type it also writes a small HTML body. -/
def httpRedirect (method : String) (resp : Response) (url : String)
    (code : Nat) : Response :=
  let hadCT := resp.headers.any (fun kv => kv.1 == "Content-Type")
  let resp := resp.setHeader "Location" url
  let resp := if !hadCT && method == "GET" then
      resp.setHeader "Content-Type" "text/html; charset=utf-8"
    else resp
  let resp := resp.writeHeader code
  if !hadCT && method == "GET" then
    resp.write ("<a href=\"" ++ htmlEscape url ++ "\">" ++ statusText code
      ++ "</a>.\n")
  else resp

/-! ## Store model (storage.go) -/

/-- A row of the `urls` table. -/
structure URLRec where
  id : Nat
  name : String
  url : String
  user : String
  hits : Nat
deriving DecidableEq, Repr

/-- A row of the `hits` table. -/
structure HitRec where
  urlId : Nat
  remotehost : String
  agent : String
  referrer : Option String
deriving DecidableEq, Repr

/-- The relational store: the two tables plus the serial counter feeding
`urls.id`. -/
structure Store where
  urls : List URLRec
  hits : List HitRec
  nextId : Nat
deriving DecidableEq, Repr

/-- The store right after schema creation. -/
def Store.empty : Store := ⟨[], [], 1⟩

/-- getURLnID: `UPDATE urls SET hits=hits+1 WHERE name=$1 RETURNING id,url`.
Atomically increments the hit counter of the named row and returns its URL
and id; a missing row surfaces as the sql.ErrNoRows sentinel and changes
nothing. -/
def Store.getURLnID (s : Store) (name : String) :
    Store × Except GoErr (String × Nat) :=
  match s.urls.find? (fun u => u.name == name) with
  | some rec =>
      let us := s.urls.map (fun u =>
        if u.name == name then { u with hits := u.hits + 1 } else u)
      ({ s with urls := us }, .ok (rec.url, rec.id))
  | none => (s, .error .sqlNoRows)

/-- getIDnUser: `SELECT id,"user" FROM urls WHERE name=$1`; sql.ErrNoRows on
a missing row. -/
def Store.getIDnUser (s : Store) (name : String) :
    Except GoErr (Nat × String) :=
  match s.urls.find? (fun u => u.name == name) with
  | some rec => .ok (rec.id, rec.user)
  | none => .error .sqlNoRows

/-- addHit: `INSERT INTO hits (url_id, remotehost, agent, referrer)`. -/
def Store.addHit (s : Store) (urlId : Nat) (ip : String) (agent : String)
    (referrer : Option String) : Store :=
  { s with hits := s.hits ++ [⟨urlId, ip, agent, referrer⟩] }

/-- addURL: `INSERT INTO urls (name, url, "user")`; the UNIQUE constraint on
`name` rejects a duplicate with a database error. -/
def Store.addURL (s : Store) (name url user : String) :
    Store × Option GoErr :=
  if s.urls.any (fun u => u.name == name) then
    (s, some (.strErr ("pq: duplicate key value violates unique constraint"
      ++ " \"urls_name_key\"")))
  else
    ({ s with
        urls := s.urls ++ [⟨s.nextId, name, url, user, 0⟩],
        nextId := s.nextId + 1 }, none)

/-- removeURL: `DELETE FROM urls WHERE name=$1` (no error on zero rows). -/
def Store.removeURL (s : Store) (name : String) : Store :=
  { s with urls := s.urls.filter (fun u => !(u.name == name)) }

/-! ## Request model and per-request state -/

/-- The relevant parts of an inbound `*http.Request`: method, the routed
`name` path value, headers and parsed form, the remote address, the two
convenience headers, and the request-scoped context values (the user name
under `userKey`, presence of the transaction under `txKey`; the transaction
handle itself lives in the threaded state `St`). -/
structure Request where
  method : String
  pathName : String
  headers : List (String × String)
  form : List (String × String)
  remoteAddr : String
  userAgent : String
  referer : String
  ctxUser : Option String
  ctxTx : Bool
deriving DecidableEq, Repr

/-- Header.Get: first value for the key, or empty string. -/
def Request.headerGet (r : Request) (k : String) : String :=
  match r.headers.find? (fun kv => kv.1 == k) with
  | some kv => kv.2
  | none => ""

/-- r.FormValue: first form value for the key, or empty string. -/
def Request.formValue (r : Request) (k : String) : String :=
  match r.form.find? (fun kv => kv.1 == k) with
  | some kv => kv.2
  | none => ""

/-- Lifecycle of the request's transaction. -/
inductive TxStatus where
  | notStarted
  | opened
  | committed
  | rolledBack
deriving DecidableEq, Repr

/-- The state threaded through a request: the committed database, the
transaction status and its working snapshot, the response writer, and
fault-injection fields standing for failures of the backing store's
BeginTx / Rollback / Commit (none = the operation succeeds). -/
structure St where
  db : Store
  txStatus : TxStatus
  txWork : Store
  resp : Response
  beginFault : Option GoErr
  rollbackFault : Option GoErr
  commitFault : Option GoErr
deriving DecidableEq, Repr

/-- Fresh fault-free state over a committed database. -/
def initSt (db : Store) : St :=
  ⟨db, .notStarted, db, Response.empty, none, none, none⟩

/-- Tx.Rollback: discards the working state of an open transaction; a
finished transaction reports sql.ErrTxDone; a store-level failure is
injected through rollbackFault. -/
def txRollback (st : St) : St × Option GoErr :=
  match st.txStatus with
  | .opened =>
    match st.rollbackFault with
    | some e => (st, some e)
    | none => ({ st with txStatus := .rolledBack }, none)
  | _ => (st, some .sqlTxDone)

/-- Tx.Commit: publishes the working state of an open transaction to the
database; a finished transaction reports sql.ErrTxDone; a store-level
failure is injected through commitFault. -/
def txCommit (st : St) : St × Option GoErr :=
  match st.txStatus with
  | .opened =>
    match st.commitFault with
    | some e => (st, some e)
    | none => ({ st with txStatus := .committed, db := st.txWork }, none)
  | _ => (st, some .sqlTxDone)

/-- getURLnID against the transaction's working state. -/
def stGetURLnID (st : St) (name : String) :
    St × Except GoErr (String × Nat) :=
  let res := st.txWork.getURLnID name
  ({ st with txWork := res.1 }, res.2)

/-- getIDnUser against the transaction's working state. -/
def stGetIDnUser (st : St) (name : String) : Except GoErr (Nat × String) :=
  st.txWork.getIDnUser name

/-- addHit against the transaction's working state. -/
def stAddHit (st : St) (urlId : Nat) (ip agent : String)
    (referrer : Option String) : St :=
  { st with txWork := st.txWork.addHit urlId ip agent referrer }

/-- addURL against the transaction's working state. -/
def stAddURL (st : St) (name url user : String) : St × Option GoErr :=
  let res := st.txWork.addURL name url user
  ({ st with txWork := res.1 }, res.2)

/-- removeURL against the transaction's working state. -/
def stRemoveURL (st : St) (name : String) : St :=
  { st with txWork := st.txWork.removeURL name }

/-! ## Handler and middleware shapes -/

/-- How a plain handler call finishes: normal return or a propagating
panic. -/
inductive Outcome where
  | ok
  | panicked (v : PanicVal)
deriving DecidableEq, Repr

/-- How an error-returning handler call finishes. -/
inductive EResult where
  | ok
  | err (e : GoErr)
  | panicked (v : PanicVal)
deriving DecidableEq, Repr

/-- http.Handler: transforms the request-scoped state, possibly panicking. -/
def Handler : Type := Request → St → St × Outcome

/-- errorHandler from the handlers source. -/
def ErrHandler : Type := Request → St → St × EResult

/-- middleware from the handlers source. -/
def Middleware : Type := Handler → Handler

/-- handleError logs the error with its status (log stream elided) and
writes the generic reason-phrase response for the code. -/
def handleError (resp : Response) (_e : GoErr) (code : Nat) : Response :=
  httpErrorWrite resp (statusText code) code

/-- HTTPError.polish: default the message to the reason phrase when it is
empty. -/
def polishMessage (code : Nat) (message : String) : String :=
  if message == "" then statusText code else message

/-- HTTPError.ServeHTTP: polish, log (elided), then http.Error with the
error's own message and code. -/
def serveHTTPError (code : Nat) (message : String) (resp : Response) :
    Response :=
  httpErrorWrite resp (polishMessage code message) code

/-- withError adapts an error-returning handler: a `*HTTPError` result (the
only error value implementing http.Handler) renders itself, any other
non-nil error goes through the generic 500 path.  The type assertion does
not unwrap, so a wrapped HTTPError does not match. -/
def withError (h : ErrHandler) : Handler := fun r st =>
  match h r st with
  | (st', .ok) => (st', .ok)
  | (st', .panicked v) => (st', .panicked v)
  | (st', .err e) =>
    match e with
    | .httpErr code _cause message =>
        ({ st' with resp := serveHTTPError code message st'.resp }, .ok)
    | _ => ({ st' with resp := handleError st'.resp e 500 }, .ok)

/-! ## Middleware (handlers source) -/

/-- loggerMiddleware logs request metadata and latency around the inner
call; the log stream is a pure side channel, so the embedding passes the
call through unchanged. -/
def loggerMiddleware : Middleware := fun next => fun r st => next r st

/-- The type switch in panicMiddleware's recovery block: an error value is
used as is, anything else is wrapped as ErrUnknown with its string
representation. -/
def classifyPanic : PanicVal → GoErr
  | .err e => e
  | .str s => .wrap ErrUnknown ("unknown error: " ++ s)

/-- panicMiddleware recovers from panics of the inner call and answers with
an internal server error; it never re-panics. -/
def panicMiddleware : Middleware := fun next => fun r st =>
  match next r st with
  | (st', .ok) => (st', .ok)
  | (st', .panicked v) =>
      ({ st' with resp := handleError st'.resp (classifyPanic v) 500 }, .ok)

/-- realIPMiddleware replaces the remote address with the trusted proxy
header when that header is nonempty. -/
def realIPMiddleware (header : String) : Middleware := fun next => fun r st =>
  let realIP := r.headerGet header
  if realIP != "" then next { r with remoteAddr := realIP } st
  else next r st

/-- staticUserMiddleware stores a fixed user name in the context. -/
def staticUserMiddleware (user : String) : Middleware := fun next => fun r st =>
  next { r with ctxUser := some user } st

/-- remoteUserMiddleware stores the proxy header's value (possibly the empty
string) in the context under the user key. -/
def remoteUserMiddleware (header : String) : Middleware := fun next => fun r st =>
  next { r with ctxUser := some (r.headerGet header) } st

/-- dbMiddleware opens a transaction, attaches it to the request context,
and rolls back before re-panicking if the inner call panics (a rollback
failure replaces the panic value); on normal return it commits, panicking
on any commit failure other than sql.ErrTxDone. -/
def dbMiddleware : Middleware := fun next => fun r st =>
  match st.beginFault with
  | some e => (st, .panicked (.err e))
  | none =>
    match next { r with ctxTx := true }
        { st with txStatus := .opened, txWork := st.db } with
    | (st2, .panicked p) =>
        let rb := txRollback st2
        match rb.2 with
        | some e => (rb.1, .panicked (.err e))
        | none => (rb.1, .panicked p)
    | (st2, .ok) =>
        let cm := txCommit st2
        match cm.2 with
        | some e =>
            if errorsIs e .sqlTxDone then (cm.1, .ok)
            else (cm.1, .panicked (.err e))
        | none => (cm.1, .ok)

/-! ## Middleware chain -/

/-- chain is a middleware chain.  The source loop sets
h = c[len-1-i] h for i = 0..len-1, i.e. it walks the reversed list
applying each middleware to the accumulated handler. -/
abbrev chain : Type := List Middleware

/-- chain.apply composes the chain around a handler, first element
outermost. -/
def chain.apply (c : chain) (h : Handler) : Handler :=
  (List.reverse c).foldl (fun acc m => m acc) h

/-- chain.applyE applies the chain around an error-returning handler. -/
def chain.applyE (c : chain) (h : ErrHandler) : Handler :=
  chain.apply c (withError h)

/-! ## Standard-library collaborators (net, net/url) -/

/-- Splitting a character list on a separator (the groups between
occurrences of the separator, in order). -/
def splitOnChar (sep : Char) : List Char → List (List Char)
  | [] => [[]]
  | c :: rest =>
    match splitOnChar sep rest with
    | [] => [[c]]
    | g :: gs => if c == sep then [] :: g :: gs else (c :: g) :: gs

/-- The numeric value of a digit group. -/
def digitsToNat (cs : List Char) : Nat :=
  cs.foldl (fun n c => n * 10 + (c.toNat - 48)) 0

/-- Model of the net.SplitHostPort collaborator: accepts the plain
host-colon-port shape (exactly one colon) and yields the host; every other
shape is the error case.  Bracketed IPv6 literals never occur here and are
elided. -/
def splitHostPortHost (s : String) : Option String :=
  if s.toList.count ':' == 1 then
    some (s.toList.takeWhile (fun c => c != ':')).asString
  else none

/-- Model of the net.ParseIP collaborator restricted to dotted-quad IPv4,
the only shape these theorems exercise: four nonempty all-digit groups,
each at most 255, with no leading zeros. -/
def isIPv4 (s : String) : Bool :=
  let parts := splitOnChar '.' s.toList
  parts.length == 4 && parts.all (fun p =>
    !p.isEmpty && p.all Char.isDigit &&
    (p == ['0'] || !(p.head? == some '0')) && digitsToNat p ≤ 255)

/-- parseIP from the handlers source: strip the port when the address
splits as host and port, keep the whole string otherwise, then parse;
failure wraps ErrInvalidIP with the offending input. -/
def parseIP (s : String) : Except GoErr String :=
  let inet := (splitHostPortHost s).getD s
  if isIPv4 inet then .ok inet
  else .error (.wrap ErrInvalidIP ("invalid IP ip: " ++ s))

/-- Model of the net/url.Parse collaborator's failure condition, restricted
to the cases exercised by this program: a URL starting with a colon has an
empty scheme (missing protocol scheme) and an ASCII control character is
rejected; other strings parse. -/
def urlParseFails (s : String) : Bool :=
  s.toList.head? == some ':'
    || s.toList.any (fun c => c.toNat < 32 || c.toNat == 127)

/-! ## Request handlers (handlers source) -/

/-- redirHandler: look the name up (atomically incrementing its counter);
on no rows roll back and answer 404; otherwise set the cache headers, issue
the 301 redirect, parse the client address and record the hit.  `expires`
stands for the formatted now-plus-90-seconds timestamp, which is impure and
passed in; the hit insert itself cannot fail in the pure store, so its
error-return branch is vacuous and omitted. -/
def redirHandler (expires : String) : ErrHandler := fun r st =>
  if !r.ctxTx then (st, .panicked (.str "no tx")) else
  let name := r.pathName
  let agent := r.userAgent
  let referer := r.referer
  let referrer : Option String := if referer != "" then some referer else none
  let lk := stGetURLnID st name
  let st1 := lk.1
  match lk.2 with
  | .error e =>
    if errorsIs e .sqlNoRows then
      let rb := txRollback st1
      match rb.2 with
      | some er =>
          (rb.1, .err (.wrap er ("failed rolling back: " ++ errMessage er)))
      | none => (rb.1, .err (.httpErr 404 .nilErr ""))
    else (st1, .err e)
  | .ok (url, urlID) =>
    let resp := ((st1.resp.setHeader "Cache-Control"
        "private, max-age=90").setHeader "Expires" expires).setHeader
        "Content-Type" "text/html"
    let resp := httpRedirect r.method resp url 301
    let st2 := { st1 with resp := resp }
    match parseIP r.remoteAddr with
    | .error e => (st2, .err e)
    | .ok ip => (stAddHit st2 urlID ip agent referrer, .ok)

/-- deleteHandler: require the transaction and user from the context
(panicking on an absent key), reject an empty user with 400, a missing name
with 404 and a non-owner with 403 — each after rolling back — and otherwise
delete the mapping. -/
def deleteHandler : ErrHandler := fun r st =>
  if !r.ctxTx then (st, .panicked (.str "no tx")) else
  match r.ctxUser with
  | none => (st, .panicked (.str "no user"))
  | some user =>
    if user == "" then
      let rb := txRollback st
      match rb.2 with
      | some er =>
          (rb.1, .err (.wrap er ("failed rolling back: " ++ errMessage er)))
      | none => (rb.1, .err (.httpErr 400 .nilErr "Missing user"))
    else
      let name := r.pathName
      match stGetIDnUser st name with
      | .error e =>
        if errorsIs e .sqlNoRows then
          let rb := txRollback st
          match rb.2 with
          | some er =>
              (rb.1, .err (.wrap er ("failed rolling back: " ++ errMessage er)))
          | none => (rb.1, .err (.httpErr 404 e ""))
        else (st, .err e)
      | .ok (_, urluser) =>
        if user != urluser then
          let rb := txRollback st
          match rb.2 with
          | some er =>
              (rb.1, .err (.wrap er ("failed rolling back: " ++ errMessage er)))
          | none => (rb.1, .err (.httpErr 403 .nilErr ""))
        else (stRemoveURL st name, .ok)

/-- validateAdminForm: fixed-order validation of the admin add form. -/
def validateAdminForm (r : Request) :
    Except GoErr (String × String × String) :=
  let name := r.formValue "name"
  let url := r.formValue "url"
  let user := r.formValue "user"
  if name == "" then .error ErrMissingName
  else if url == "" then .error ErrMissingURL
  else if urlParseFails url then .error ErrInvalidURL
  else if user == "" then .error ErrMissingUser
  else .ok (name, url, user)

/-- adminPostHandler: require transaction and user from the context, roll
back and answer 400 with the validation error's own message on an invalid
form, otherwise insert the mapping and redirect to the admin page with
303. -/
def adminPostHandler : ErrHandler := fun r st =>
  if !r.ctxTx then (st, .panicked (.str "no tx")) else
  match r.ctxUser with
  | none => (st, .panicked (.str "no user"))
  | some _ =>
    match validateAdminForm r with
    | .error e =>
      let rb := txRollback st
      match rb.2 with
      | some er =>
          (rb.1, .err (.wrap er ("failed rolling back: " ++ errMessage er)))
      | none => (rb.1, .err (.httpErr 400 e (errMessage e)))
    | .ok (name, url, user) =>
      let ins := stAddURL st name url user
      match ins.2 with
      | some e => (ins.1, .err e)
      | none =>
          ({ ins.1 with
              resp := httpRedirect r.method ins.1.resp "/_admin" 303 }, .ok)

/-! ## Production wiring (main.go setupServeMux) -/

/-- The middleware stack built by setupServeMux when RealIPHeader and
RemoteUserHeader are unset: panic recovery, logging, transaction
management, then the static "test" user. -/
def prodMws : chain :=
  [panicMiddleware, loggerMiddleware, dbMiddleware, staticUserMiddleware "test"]

/-- The stack when RemoteUserHeader is configured as `h`. -/
def remoteMws (h : String) : chain :=
  [panicMiddleware, loggerMiddleware, dbMiddleware, remoteUserMiddleware h]

/-- A stack with no user-identification layer at all (as in the missing-user
middleware test). -/
def noUserMws : chain :=
  [panicMiddleware, loggerMiddleware, dbMiddleware]

/-- End-to-end run of the GET route for a short name. -/
def runRedir (expires : String) (db : Store) (r : Request) : St × Outcome :=
  chain.applyE prodMws (redirHandler expires) r (initSt db)

/-- End-to-end run of the POST admin route. -/
def runAdminPost (db : Store) (r : Request) : St × Outcome :=
  chain.applyE prodMws adminPostHandler r (initSt db)

/-- End-to-end run of the DELETE route behind a configured remote-user
header. -/
def runDeleteRemote (h : String) (db : Store) (r : Request) : St × Outcome :=
  chain.applyE (remoteMws h) deleteHandler r (initSt db)

/-- End-to-end run of the DELETE route with no user middleware. -/
def runDeleteNoUser (db : Store) (r : Request) : St × Outcome :=
  chain.applyE noUserMws deleteHandler r (initSt db)

/-- Recognizer for the structured `*HTTPError` kind (the only error value
carrying an explicit status). -/
def isHTTPErr : GoErr → Bool
  | .httpErr _ _ _ => true
  | _ => false

/-- A minimal inbound request (no headers, no form, empty context). -/
def req0 : Request := ⟨"GET", "", [], [], "", "", "", none, false⟩

/-- GET of the short name baz as issued by a client at 192.0.2.1. -/
def reqGetBaz : Request :=
  ⟨"GET", "baz", [], [], "192.0.2.1:1234", "agent", "", none, false⟩

/-- POST of the admin add form for baz. -/
def reqPostBaz : Request :=
  ⟨"POST", "", [],
    [("name", "baz"), ("url", "http://example.com"), ("user", "test")],
    "192.0.2.1:1234", "", "", none, false⟩

/-- POST of an empty admin form (missing every field). -/
def reqPostNone : Request :=
  ⟨"POST", "", [], [], "192.0.2.1:1234", "", "", none, false⟩

/-- POST of an admin form carrying only the name. -/
def reqPostNameOnly : Request :=
  ⟨"POST", "", [], [("name", "baz")], "192.0.2.1:1234", "", "", none, false⟩

/-- DELETE of the short name baz with no headers. -/
def reqDelBaz : Request :=
  ⟨"DELETE", "baz", [], [], "192.0.2.1:1234", "", "", none, false⟩

/-! ## Theorems -/

/-- C5: chain application around a handler composes the middlewares with the
first element outermost — apply [A, B, C] H = A (B (C H)), so A sees the
request first and the response last — and application is associative:
applying a concatenation of chains equals applying the first chain to the
result of applying the second. -/
theorem chain_apply_compose_assoc :
    (∀ (A B C : Middleware) (H : Handler),
      chain.apply [A, B, C] H = A (B (C H))) ∧
    (∀ (c1 c2 : chain) (H : Handler),
      chain.apply (c1 ++ c2) H = chain.apply c1 (chain.apply c2 H)) := by
  constructor
  · intro A B C H
    rfl
  · intro c1 c2 H
    unfold chain.apply
    rw [List.reverse_append, List.foldl_append]

/-- C4: panicMiddleware uses a recovered error value directly and wraps any
other recovered value as the Unknown sentinel with its string
representation; it always answers the panic with the 500 reason-phrase
page over whatever was already written, and it never re-panics. -/
theorem panicMiddleware_recovers (next : Handler) (r : Request)
    (st st' : St) (v : PanicVal)
    (hrun : next r st = (st', .panicked v)) :
    panicMiddleware next r st
      = ({ st' with resp := handleError st'.resp (classifyPanic v) 500 },
          .ok) ∧
    (∀ e, classifyPanic (.err e) = e) ∧
    (∀ s, classifyPanic (.str s)
      = .wrap ErrUnknown ("unknown error: " ++ s)) ∧
    handleError st'.resp (classifyPanic v) 500
      = httpErrorWrite st'.resp (statusText 500) 500 ∧
    (∀ (n : Handler) (r' : Request) (s : St),
      (panicMiddleware n r' s).2 = .ok) := by
  refine ⟨?_, fun e => rfl, fun s => rfl, rfl, ?_⟩
  · unfold panicMiddleware
    rw [hrun]
  · intro n r' s
    unfold panicMiddleware
    rcases hn : n r' s with ⟨s', o⟩
    cases o <;> simp [hn]

/-- C4 witness: the recovery at a concrete non-error panic value. -/
theorem panicMiddleware_recovers_witness :
    panicMiddleware (fun _ st => (st, .panicked (.str "boom"))) req0
        (initSt Store.empty)
      = ({ initSt Store.empty with
            resp := handleError Response.empty
              (classifyPanic (.str "boom")) 500 }, .ok) :=
  (panicMiddleware_recovers _ req0 (initSt Store.empty) _ (.str "boom")
    rfl).1

/-- C1: when the inner call panics while the transaction is open, the
transaction-management middleware rolls back and then re-raises the
original panic value; if the rollback itself fails, the rollback failure
replaces the original panic value instead of being swallowed. -/
theorem dbMiddleware_panic_rollback (next : Handler) (r : Request)
    (st st2 : St) (p : PanicVal)
    (hbegin : st.beginFault = none)
    (hrun : next { r with ctxTx := true }
      { st with txStatus := .opened, txWork := st.db } = (st2, .panicked p))
    (hopen : st2.txStatus = .opened) :
    (st2.rollbackFault = none →
      dbMiddleware next r st
        = ({ st2 with txStatus := .rolledBack }, .panicked p)) ∧
    (∀ e, st2.rollbackFault = some e →
      dbMiddleware next r st = (st2, .panicked (.err e))) := by
  constructor
  · intro hrb
    unfold dbMiddleware
    rw [hrun]
    simp [hbegin, txRollback, hopen, hrb]
  · intro e hrb
    unfold dbMiddleware
    rw [hrun]
    simp [hbegin, txRollback, hopen, hrb]

/-- C1 witness: rollback and re-raise at a concrete panicking handler. -/
theorem dbMiddleware_panic_rollback_witness :
    dbMiddleware (fun _ st => (st, .panicked (.str "boom"))) req0
        (initSt Store.empty)
      = ({ initSt Store.empty with txStatus := .rolledBack },
          .panicked (.str "boom")) :=
  (dbMiddleware_panic_rollback _ req0 (initSt Store.empty)
    { initSt Store.empty with txStatus := .opened } (.str "boom")
    rfl rfl rfl).1 rfl

/-- C2: when the inner call returns normally, the transaction-management
middleware commits; a commit failure equal to the already-finished sentinel
(also the one produced when a handler already completed the transaction) is
ignored, while any other commit failure is raised as a new panic, which the
outer panic-recovery layer turns into the 500 page over the possibly
partially written response. -/
theorem dbMiddleware_commit (next : Handler) (r : Request) (st st2 : St)
    (hbegin : st.beginFault = none)
    (hrun : next { r with ctxTx := true }
      { st with txStatus := .opened, txWork := st.db } = (st2, .ok)) :
    (st2.txStatus = .opened → st2.commitFault = none →
      dbMiddleware next r st
        = ({ st2 with txStatus := .committed, db := st2.txWork }, .ok)) ∧
    (∀ e, st2.txStatus = .opened → st2.commitFault = some e →
      errorsIs e .sqlTxDone = true →
      dbMiddleware next r st = (st2, .ok)) ∧
    (∀ e, st2.txStatus = .opened → st2.commitFault = some e →
      errorsIs e .sqlTxDone = false →
      dbMiddleware next r st = (st2, .panicked (.err e)) ∧
      panicMiddleware (dbMiddleware next) r st
        = ({ st2 with resp := handleError st2.resp e 500 }, .ok)) ∧
    (st2.txStatus = .rolledBack →
      dbMiddleware next r st = (st2, .ok)) := by
  refine ⟨?_, ?_, ?_, ?_⟩
  · intro hop hcf
    unfold dbMiddleware
    rw [hrun]
    simp [hbegin, txCommit, hop, hcf]
  · intro e hop hcf htd
    unfold dbMiddleware
    rw [hrun]
    simp [hbegin, txCommit, hop, hcf, htd]
  · intro e hop hcf htd
    have hdb : dbMiddleware next r st = (st2, .panicked (.err e)) := by
      unfold dbMiddleware
      rw [hrun]
      simp [hbegin, txCommit, hop, hcf, htd]
    refine ⟨hdb, ?_⟩
    unfold panicMiddleware
    rw [hdb]
    rfl
  · intro hrb
    unfold dbMiddleware
    rw [hrun]
    simp [hbegin, txCommit, hrb, errorsIs]

/-- C2 witness: a concrete no-op inner handler commits the transaction. -/
theorem dbMiddleware_commit_witness :
    dbMiddleware (fun _ st => (st, .ok)) req0 (initSt Store.empty)
      = ({ initSt Store.empty with txStatus := .committed }, .ok) :=
  (dbMiddleware_commit _ req0 (initSt Store.empty) _ rfl rfl).1 rfl rfl

/-- The GET request for baz as the handler sees it below the transaction
middleware (transaction attached to the context). -/
def reqGetBazTx : Request := { reqGetBaz with ctxTx := true }

/-- C3 counterexample: the claimed no-rows clause fails on the code — a bare
sql.ErrNoRows crossing the handler boundary is rendered by the generic 500
path, not as 404. -/
theorem withError_noRows_counterexample :
    ((withError (fun _ st => (st, .err .sqlNoRows)) req0
        (initSt Store.empty)).1.resp.status = some 500) ∧
    ((withError (fun _ st => (st, .err .sqlNoRows)) req0
        (initSt Store.empty)).1.resp.status ≠ some 404) := by
  constructor
  · rfl
  · decide

/-- C3 (amended): the boundary conversion renders an explicit-status error
with its own status and message verbatim (defaulting to the reason phrase
for the status when the message is empty), and renders every other error
value — including the bare no-rows sentinel — through the generic 500 path
with a message that does not expose the cause; the no-rows-to-404 mapping
instead happens inside the handlers, which roll back and replace the
sentinel with an explicit 404-status error before it crosses the
boundary. -/
theorem withError_precedence (r : Request) (st : St) :
    (∀ (h : ErrHandler) (st' : St) (code : Nat) (cause : GoErr)
        (msg : String),
      h r st = (st', .err (.httpErr code cause msg)) →
      withError h r st
        = ({ st' with resp := serveHTTPError code msg st'.resp }, .ok)) ∧
    (∀ (code : Nat) (resp : Response),
      serveHTTPError code "" resp
        = httpErrorWrite resp (statusText code) code) ∧
    (∀ (code : Nat) (msg : String) (resp : Response), msg ≠ "" →
      serveHTTPError code msg resp = httpErrorWrite resp msg code) ∧
    (∀ (h : ErrHandler) (st' : St) (e : GoErr),
      h r st = (st', .err e) → isHTTPErr e = false →
      withError h r st
        = ({ st' with
              resp := httpErrorWrite st'.resp (statusText 500) 500 },
            .ok)) ∧
    (∀ expires : String,
      st.txStatus = .opened → st.rollbackFault = none → r.ctxTx = true →
      st.txWork.urls.find? (fun u => u.name == r.pathName) = none →
      redirHandler expires r st
        = ({ st with txStatus := .rolledBack },
            .err (.httpErr 404 .nilErr ""))) := by
  refine ⟨?_, ?_, ?_, ?_, ?_⟩
  · intro h st' code cause msg hh
    unfold withError
    rw [hh]
  · intro code resp
    rfl
  · intro code msg resp hne
    unfold serveHTTPError polishMessage
    simp [hne]
  · intro h st' e hh hne
    unfold withError
    rw [hh]
    cases e <;> first
      | rfl
      | (exfalso; simp [isHTTPErr] at hne)
  · intro expires hop hrbf hctx hmiss
    unfold redirHandler
    simp [hctx, stGetURLnID, Store.getURLnID, hmiss, txRollback, hop, hrbf,
      errorsIs]

/-- C3 witness: a concrete explicit-status error renders itself, and the
redirect handler converts a concrete no-rows miss into an explicit 404. -/
theorem withError_precedence_witness :
    (withError (fun _ st => (st, .err (.httpErr 403 .nilErr "go away")))
        req0 (initSt Store.empty)
      = ({ initSt Store.empty with
            resp := serveHTTPError 403 "go away" Response.empty }, .ok)) ∧
    (redirHandler "exp" reqGetBazTx
        { initSt Store.empty with txStatus := .opened }
      = ({ initSt Store.empty with txStatus := .rolledBack },
          .err (.httpErr 404 .nilErr ""))) :=
  ⟨(withError_precedence req0 (initSt Store.empty)).1 _ _ 403 .nilErr
      "go away" rfl,
    (withError_precedence reqGetBazTx
      { initSt Store.empty with txStatus := .opened }).2.2.2.2 "exp" rfl
      rfl rfl rfl⟩

/-- C6 counterexample: on an unknown name the redirect handler itself rolls
the transaction back — the handler returns with the transaction already
rolled back, and after the full run the transaction is rolled back, not
committed, so the transaction-management layer's commit did not complete
it. -/
theorem redir_notfound_counterexample :
    (redirHandler "exp" reqGetBazTx
        { initSt Store.empty with txStatus := .opened }).1.txStatus
      = .rolledBack ∧
    (runRedir "exp" Store.empty reqGetBaz).1.txStatus = .rolledBack ∧
    (runRedir "exp" Store.empty reqGetBaz).1.txStatus ≠ .committed := by
  refine ⟨rfl, rfl, ?_⟩
  decide

/-- C6 (amended): for every redirect request whose name is not in the
store, the response is 404, no hit record is created and no hit counter is
incremented (the committed database is unchanged); the handler itself rolls
the transaction back before returning, and the transaction-management
layer's subsequent commit reports the already-finished sentinel, which is
ignored, so the request still completes without a panic. -/
theorem redir_notfound (expires : String) (db : Store) (r : Request)
    (hmiss : db.urls.find? (fun u => u.name == r.pathName) = none) :
    (runRedir expires db r).1.resp.status = some 404 ∧
    (runRedir expires db r).1.resp.body = "Not Found\n" ∧
    (runRedir expires db r).1.db = db ∧
    (runRedir expires db r).1.txStatus = .rolledBack ∧
    (runRedir expires db r).2 = .ok := by
  have key : runRedir expires db r
      = ({ db := db, txStatus := .rolledBack, txWork := db,
            resp := httpErrorWrite Response.empty (statusText 404) 404,
            beginFault := none, rollbackFault := none,
            commitFault := none }, .ok) := by
    unfold runRedir chain.applyE chain.apply prodMws
    simp [panicMiddleware, loggerMiddleware, dbMiddleware,
      staticUserMiddleware, withError, redirHandler, stGetURLnID,
      Store.getURLnID, hmiss, txRollback, txCommit, errorsIs, initSt,
      serveHTTPError, polishMessage]
  rw [key]
  exact ⟨rfl, rfl, rfl, rfl, rfl⟩

/-- C6 witness: the amended behavior at a concrete unknown name over the
empty store. -/
theorem redir_notfound_witness :
    (runRedir "exp" Store.empty reqGetBaz).1.resp.status = some 404 ∧
    (runRedir "exp" Store.empty reqGetBaz).1.db = Store.empty :=
  ⟨(redir_notfound "exp" Store.empty reqGetBaz rfl).1,
    (redir_notfound "exp" Store.empty reqGetBaz rfl).2.2.1⟩

/-- Form values are unaffected by the context updates the middlewares
perform on the request. -/
theorem formValue_with (r : Request) (u : Option String) (b : Bool)
    (k : String) :
    Request.formValue { r with ctxUser := u, ctxTx := b } k
      = r.formValue k := rfl

/-- Headers are unaffected by the context updates the middlewares perform
on the request. -/
theorem headerGet_with (r : Request) (u : Option String) (b : Bool)
    (k : String) :
    Request.headerGet { r with ctxUser := u, ctxTx := b } k
      = r.headerGet k := rfl

/-- The production admin-POST pipeline on a form the validator rejects:
the handler rolls back and the rejection renders as a 400 page carrying the
validation error's message. -/
theorem runAdminPost_invalid (db : Store) (r : Request) (e : GoErr)
    (hval : validateAdminForm { r with ctxUser := some "test", ctxTx := true }
      = .error e) :
    runAdminPost db r
      = ({ db := db, txStatus := .rolledBack, txWork := db,
            resp := serveHTTPError 400 (errMessage e) Response.empty,
            beginFault := none, rollbackFault := none,
            commitFault := none }, .ok) := by
  unfold runAdminPost chain.applyE chain.apply prodMws
  simp [panicMiddleware, loggerMiddleware, dbMiddleware,
    staticUserMiddleware, withError, adminPostHandler, hval, txRollback,
    txCommit, errorsIs, initSt]

/-- C7 counterexample: at the claim's own highlighted input — a form
missing both name and URL — the missing-name message is chosen, but the
response body carries the trailing newline appended by the plain-text error
writer, so the body is not exactly the string missing name. -/
theorem admin_validation_newline_counterexample :
    (runAdminPost Store.empty reqPostNone).1.resp.status = some 400 ∧
    (runAdminPost Store.empty reqPostNone).1.resp.body = "missing name\n" ∧
    (runAdminPost Store.empty reqPostNone).1.resp.body ≠ "missing name" := by
  refine ⟨rfl, rfl, ?_⟩
  decide

/-- C7 (amended): admin-add validation is applied in the fixed order
missing name, missing URL, URL fails to parse, missing user; the first
failure yields a 400 response whose body is exactly the corresponding
message — missing name, missing URL, invalid URL, missing user — followed
by the newline the plain-text error writer appends; in particular a form
missing both name and URL yields the missing-name message. -/
theorem admin_validation_order (db : Store) (r : Request) :
    (r.formValue "name" = "" →
      (runAdminPost db r).1.resp.status = some 400 ∧
      (runAdminPost db r).1.resp.body = "missing name\n") ∧
    (r.formValue "name" ≠ "" → r.formValue "url" = "" →
      (runAdminPost db r).1.resp.status = some 400 ∧
      (runAdminPost db r).1.resp.body = "missing URL\n") ∧
    (r.formValue "name" ≠ "" → r.formValue "url" ≠ "" →
      urlParseFails (r.formValue "url") = true →
      (runAdminPost db r).1.resp.status = some 400 ∧
      (runAdminPost db r).1.resp.body = "invalid URL\n") ∧
    (r.formValue "name" ≠ "" → r.formValue "url" ≠ "" →
      urlParseFails (r.formValue "url") = false →
      r.formValue "user" = "" →
      (runAdminPost db r).1.resp.status = some 400 ∧
      (runAdminPost db r).1.resp.body = "missing user\n") := by
  refine ⟨?_, ?_, ?_, ?_⟩
  · intro h1
    have hval : validateAdminForm
        { r with ctxUser := some "test", ctxTx := true }
        = .error ErrMissingName := by
      unfold validateAdminForm
      simp [formValue_with, h1]
    rw [runAdminPost_invalid db r _ hval]
    exact ⟨rfl, rfl⟩
  · intro h1 h2
    have hval : validateAdminForm
        { r with ctxUser := some "test", ctxTx := true }
        = .error ErrMissingURL := by
      unfold validateAdminForm
      simp [formValue_with, h1, h2]
    rw [runAdminPost_invalid db r _ hval]
    exact ⟨rfl, rfl⟩
  · intro h1 h2 h3
    have hval : validateAdminForm
        { r with ctxUser := some "test", ctxTx := true }
        = .error ErrInvalidURL := by
      unfold validateAdminForm
      simp [formValue_with, h1, h2, h3]
    rw [runAdminPost_invalid db r _ hval]
    exact ⟨rfl, rfl⟩
  · intro h1 h2 h3 h4
    have hval : validateAdminForm
        { r with ctxUser := some "test", ctxTx := true }
        = .error ErrMissingUser := by
      unfold validateAdminForm
      simp [formValue_with, h1, h2, h3, h4]
    rw [runAdminPost_invalid db r _ hval]
    exact ⟨rfl, rfl⟩

/-- C7 witness: a form carrying only its name is rejected with the
missing-URL message. -/
theorem admin_validation_order_witness :
    (runAdminPost Store.empty reqPostNameOnly).1.resp.status = some 400 ∧
    (runAdminPost Store.empty reqPostNameOnly).1.resp.body
      = "missing URL\n" :=
  (admin_validation_order Store.empty reqPostNameOnly).2.1 (by decide) rfl

/-- C8: starting from the empty store, POST of the admin form
name=baz, url=http://example.com, user=test responds 303 with Location
/_admin, and a subsequent GET /baz over the resulting store responds 301
with Location http://example.com and Cache-Control private, max-age=90. -/
theorem admin_add_then_redirect_scenario (expires : String) :
    (runAdminPost Store.empty reqPostBaz).1.resp.status = some 303 ∧
    (runAdminPost Store.empty reqPostBaz).1.resp.getHeader "Location"
      = "/_admin" ∧
    (runRedir expires (runAdminPost Store.empty reqPostBaz).1.db
        reqGetBaz).1.resp.status = some 301 ∧
    (runRedir expires (runAdminPost Store.empty reqPostBaz).1.db
        reqGetBaz).1.resp.getHeader "Location" = "http://example.com" ∧
    (runRedir expires (runAdminPost Store.empty reqPostBaz).1.db
        reqGetBaz).1.resp.getHeader "Cache-Control"
      = "private, max-age=90" := by
  refine ⟨?_, ?_, ?_, ?_, ?_⟩ <;> rfl

/-- A rollback that reported no failure has moved the transaction to the
rolled-back state and touched nothing else. -/
theorem txRollback_none_spec (st : St) (h : (txRollback st).2 = none) :
    (txRollback st).1 = { st with txStatus := .rolledBack } := by
  unfold txRollback at *
  cases hts : st.txStatus <;> simp [hts] at h ⊢
  rcases hrf : st.rollbackFault with _ | er <;> simp [hrf] at h ⊢

/-- parseIP failures are wrapped sentinel errors, never explicit-status
errors. -/
theorem parseIP_error_not_http (s : String) (e : GoErr)
    (h : parseIP s = .error e) : isHTTPErr e = false := by
  unfold parseIP at h
  simp only [] at h
  split at h
  · cases h
  · injection h with h1
    rw [← h1]
    rfl

/-- addURL failures are uniqueness-violation store errors, never
explicit-status errors. -/
theorem addURL_error_not_http (s : Store) (n u v : String) (e : GoErr)
    (h : (Store.addURL s n u v).2 = some e) : isHTTPErr e = false := by
  unfold Store.addURL at h
  split at h
  · injection h with h1
    rw [← h1]
    rfl
  · cases h

/-- errorsIs is reflexive at the no-rows sentinel. -/
theorem errorsIs_noRows_self : errorsIs .sqlNoRows .sqlNoRows = true := rfl

/-- C9: every rejection branch returning an explicit-status error —
redirect not-found, delete with empty user, delete not-found, delete by a
non-owner, and admin-add validation failure — has already rolled the
transaction back, leaving the committed database untouched; committing such
a completed transaction reports the already-finished sentinel, and the
transaction-management middleware treats that commit outcome as a
successful no-op, so a rejected request never commits its transaction's
work. -/
theorem rejection_rolls_back :
    (∀ (expires : String) (r : Request) (st st' : St) (e : GoErr),
      redirHandler expires r st = (st', .err e) → isHTTPErr e = true →
      st'.txStatus = .rolledBack ∧ st'.db = st.db) ∧
    (∀ (r : Request) (st st' : St) (e : GoErr),
      deleteHandler r st = (st', .err e) → isHTTPErr e = true →
      st'.txStatus = .rolledBack ∧ st'.db = st.db) ∧
    (∀ (r : Request) (st st' : St) (e : GoErr),
      adminPostHandler r st = (st', .err e) → isHTTPErr e = true →
      st'.txStatus = .rolledBack ∧ st'.db = st.db) ∧
    (∀ st' : St, st'.txStatus = .rolledBack →
      txCommit st' = (st', some .sqlTxDone)) ∧
    (∀ (next : Handler) (r : Request) (st st2 : St),
      st.beginFault = none →
      next { r with ctxTx := true }
        { st with txStatus := .opened, txWork := st.db } = (st2, .ok) →
      st2.txStatus = .rolledBack →
      dbMiddleware next r st = (st2, .ok)) := by
  refine ⟨?_, ?_, ?_, ?_, ?_⟩
  · -- redirHandler
    intro expires r st st' e h he
    cases hctx : r.ctxTx
    · simp [redirHandler, hctx] at h
    · rcases hfind : st.txWork.urls.find? (fun u => u.name == r.pathName)
        with _ | rec
      · simp only [redirHandler, hctx, stGetURLnID, Store.getURLnID, hfind,
          Bool.not_true, Bool.false_eq_true, if_false, errorsIs_noRows_self,
          if_true] at h
        rcases hrb : (txRollback st).2 with _ | er <;>
          simp only [hrb] at h
        · rw [txRollback_none_spec st hrb, Prod.mk.injEq] at h
          obtain ⟨h1, h2⟩ := h
          subst h1
          exact ⟨rfl, rfl⟩
        · rw [Prod.mk.injEq] at h
          obtain ⟨h1, h2⟩ := h
          injection h2 with h3
          rw [← h3] at he
          simp [isHTTPErr] at he
      · simp only [redirHandler, hctx, stGetURLnID, Store.getURLnID, hfind,
          Bool.not_true, Bool.false_eq_true, if_false] at h
        rcases hip : parseIP r.remoteAddr with er | ip <;>
          simp only [hip] at h
        · rw [Prod.mk.injEq] at h
          obtain ⟨h1, h2⟩ := h
          injection h2 with h3
          rw [← h3] at he
          rw [parseIP_error_not_http _ _ hip] at he
          cases he
        · rw [Prod.mk.injEq] at h
          obtain ⟨h1, h2⟩ := h
          cases h2
  · -- deleteHandler
    intro r st st' e h he
    cases hctx : r.ctxTx
    · simp [deleteHandler, hctx] at h
    · rcases hcu : r.ctxUser with _ | user
      · simp [deleteHandler, hctx, hcu] at h
      · by_cases huser : user = ""
        · simp only [deleteHandler, hctx, hcu, huser, Bool.not_true,
            Bool.false_eq_true, if_false] at h
          simp only [beq_self_eq_true, if_true] at h
          rcases hrb : (txRollback st).2 with _ | er <;>
            simp only [hrb] at h
          · rw [txRollback_none_spec st hrb, Prod.mk.injEq] at h
            obtain ⟨h1, h2⟩ := h
            subst h1
            exact ⟨rfl, rfl⟩
          · rw [Prod.mk.injEq] at h
            obtain ⟨h1, h2⟩ := h
            injection h2 with h3
            rw [← h3] at he
            simp [isHTTPErr] at he
        · have huser' : (user == "") = false := by
            simp [huser]
          rcases hfind : st.txWork.urls.find?
              (fun u => u.name == r.pathName) with _ | rec
          · simp only [deleteHandler, hctx, hcu, huser', stGetIDnUser,
              Store.getIDnUser, hfind, Bool.not_true, Bool.false_eq_true,
              if_false, errorsIs_noRows_self, if_true] at h
            rcases hrb : (txRollback st).2 with _ | er <;>
              simp only [hrb] at h
            · rw [txRollback_none_spec st hrb, Prod.mk.injEq] at h
              obtain ⟨h1, h2⟩ := h
              subst h1
              exact ⟨rfl, rfl⟩
            · rw [Prod.mk.injEq] at h
              obtain ⟨h1, h2⟩ := h
              injection h2 with h3
              rw [← h3] at he
              simp [isHTTPErr] at he
          · by_cases hown : user = rec.user
            · have hown' : (user != rec.user) = false := by
                simp [hown]
              simp only [deleteHandler, hctx, hcu, huser', stGetIDnUser,
                Store.getIDnUser, hfind, hown', Bool.not_true,
                Bool.false_eq_true, if_false] at h
              rw [Prod.mk.injEq] at h
              obtain ⟨h1, h2⟩ := h
              cases h2
            · have hown' : (user != rec.user) = true := by
                simp [bne_iff_ne, hown]
              simp only [deleteHandler, hctx, hcu, huser', stGetIDnUser,
                Store.getIDnUser, hfind, hown', Bool.not_true,
                Bool.false_eq_true, if_false, if_true] at h
              rcases hrb : (txRollback st).2 with _ | er <;>
                simp only [hrb] at h
              · rw [txRollback_none_spec st hrb, Prod.mk.injEq] at h
                obtain ⟨h1, h2⟩ := h
                subst h1
                exact ⟨rfl, rfl⟩
              · rw [Prod.mk.injEq] at h
                obtain ⟨h1, h2⟩ := h
                injection h2 with h3
                rw [← h3] at he
                simp [isHTTPErr] at he
  · -- adminPostHandler
    intro r st st' e h he
    cases hctx : r.ctxTx
    · simp [adminPostHandler, hctx] at h
    · rcases hcu : r.ctxUser with _ | user
      · simp [adminPostHandler, hctx, hcu] at h
      · rcases hval : validateAdminForm r with ev | tv
        · simp only [adminPostHandler, hctx, hcu, hval, Bool.not_true,
            Bool.false_eq_true, if_false] at h
          rcases hrb : (txRollback st).2 with _ | er <;>
            simp only [hrb] at h
          · rw [txRollback_none_spec st hrb, Prod.mk.injEq] at h
            obtain ⟨h1, h2⟩ := h
            subst h1
            exact ⟨rfl, rfl⟩
          · rw [Prod.mk.injEq] at h
            obtain ⟨h1, h2⟩ := h
            injection h2 with h3
            rw [← h3] at he
            simp [isHTTPErr] at he
        · obtain ⟨name, url, user'⟩ := tv
          simp only [adminPostHandler, hctx, hcu, hval, stAddURL,
            Bool.not_true, Bool.false_eq_true, if_false] at h
          rcases hins : (Store.addURL st.txWork name url user').2
              with _ | ei <;> simp only [hins] at h
          · rw [Prod.mk.injEq] at h
            obtain ⟨h1, h2⟩ := h
            cases h2
          · rw [Prod.mk.injEq] at h
            obtain ⟨h1, h2⟩ := h
            injection h2 with h3
            rw [← h3] at he
            rw [addURL_error_not_http _ _ _ _ _ hins] at he
            cases he
  · -- committing a rolled-back transaction reports the sentinel
    intro st' h
    unfold txCommit
    simp [h]
  · -- the middleware ignores the double-completion commit outcome
    intro next r st st2 hbegin hrun hrb
    unfold dbMiddleware
    rw [hrun]
    simp [hbegin, txCommit, hrb, errorsIs]

/-- C9 witness: the empty-user delete rejection at a concrete state has
rolled the transaction back and left the committed database untouched. -/
theorem rejection_rolls_back_witness :
    ((deleteHandler { reqDelBaz with ctxUser := some "", ctxTx := true }
        { initSt Store.empty with txStatus := .opened }).1.txStatus
      = .rolledBack) ∧
    ((deleteHandler { reqDelBaz with ctxUser := some "", ctxTx := true }
        { initSt Store.empty with txStatus := .opened }).1.db
      = Store.empty) :=
  rejection_rolls_back.2.1 { reqDelBaz with ctxUser := some "", ctxTx := true }
    { initSt Store.empty with txStatus := .opened } _ _ rfl rfl

/-- C10: when the remote-user middleware is configured and the request
lacks the configured header, the user key is still stored with the empty
string, so DELETE is rejected with 400 Missing user; when no user
middleware ran at all, the key is absent, the delete handler panics, the
transaction middleware rolls back and the recovery layer answers with the
generic 500 page — empty user and absent user are observably different
outcomes. -/
theorem delete_empty_vs_absent_user (hd : String) (db : Store)
    (r : Request) (hh : r.headerGet hd = "") (hu : r.ctxUser = none) :
    (runDeleteRemote hd db r).1.resp.status = some 400 ∧
    (runDeleteRemote hd db r).1.resp.body = "Missing user\n" ∧
    (runDeleteNoUser db r).1.resp.status = some 500 ∧
    (runDeleteNoUser db r).1.resp.body = "Internal Server Error\n" ∧
    (runDeleteNoUser db r).2 = .ok := by
  have keyA : runDeleteRemote hd db r
      = ({ db := db, txStatus := .rolledBack, txWork := db,
            resp := serveHTTPError 400 "Missing user" Response.empty,
            beginFault := none, rollbackFault := none,
            commitFault := none }, .ok) := by
    unfold runDeleteRemote chain.applyE chain.apply remoteMws
    simp [panicMiddleware, loggerMiddleware, dbMiddleware,
      remoteUserMiddleware, withError, deleteHandler, headerGet_with, hh,
      txRollback, txCommit, errorsIs, initSt]
  have keyB : runDeleteNoUser db r
      = ({ db := db, txStatus := .rolledBack, txWork := db,
            resp := handleError Response.empty
              (classifyPanic (.str "no user")) 500,
            beginFault := none, rollbackFault := none,
            commitFault := none }, .ok) := by
    unfold runDeleteNoUser chain.applyE chain.apply noUserMws
    simp [panicMiddleware, loggerMiddleware, dbMiddleware, withError,
      deleteHandler, hu, txRollback, txCommit, errorsIs, initSt,
      classifyPanic]
  rw [keyA, keyB]
  exact ⟨rfl, rfl, rfl, rfl, rfl⟩

/-- C10 witness: the two outcomes at a concrete header name, request and
store. -/
theorem delete_empty_vs_absent_user_witness :
    (runDeleteRemote "X-Remote-User" Store.empty reqDelBaz).1.resp.status
      = some 400 ∧
    (runDeleteNoUser Store.empty reqDelBaz).1.resp.status = some 500 :=
  ⟨(delete_empty_vs_absent_user "X-Remote-User" Store.empty reqDelBaz rfl
      rfl).1,
    (delete_empty_vs_absent_user "X-Remote-User" Store.empty reqDelBaz rfl
      rfl).2.2.1⟩

end Urlredir
